import Mathlib

/-!
Verification of the backtalk dispatch core: a shallow embedding of
`src/adapter.rs`, `src/request.rs` and `src/reply.rs`, together with
models of the small pieces of the crate that those files reference but
whose sources are absent (`Error`, `Sender`, `make_reply`), written
from the design document.  Machinery from external crates (serde_json
serialization, the futures mpsc queue, hyper responses) is embedded
explicitly so that the dispatch and streaming logic can be stated and
proved.
-/

/-- JSON documents, mirroring serde_json::Value.  Numbers are modelled as
integers; objects are ordered key/value lists. -/
inductive Json where
  | null : Json
  | bool : Bool → Json
  | num : Int → Json
  | str : String → Json
  | arr : List Json → Json
  | obj : List (String × Json) → Json

/-- Hex digit for the low four bits of a number, as in serde_json's
unicode escapes. -/
def hexDigit (n : Nat) : Char :=
  if n < 10 then Char.ofNat (48 + n) else Char.ofNat (87 + (n % 16))

/-- Escape one character the way serde_json's compact serializer does:
quote and backslash are backslash-escaped, control characters use the
short escapes or a \u00XX sequence, everything else is passed through. -/
def jsonEscapeChar (c : Char) : String :=
  if c = '"' then "\\\""
  else if c = '\\' then "\\\\"
  else if c = Char.ofNat 8 then "\\b"
  else if c = Char.ofNat 9 then "\\t"
  else if c = Char.ofNat 10 then "\\n"
  else if c = Char.ofNat 12 then "\\f"
  else if c = Char.ofNat 13 then "\\r"
  else if c.toNat < 32 then
    "\\u00" ++ String.mk [hexDigit (c.toNat / 16), hexDigit (c.toNat % 16)]
  else String.mk [c]

/-- Escape a whole string for JSON output. -/
def jsonEscape (s : String) : String :=
  String.join (s.toList.map jsonEscapeChar)

mutual

/-- Compact serialization of a JSON document, mirroring
serde_json::to_string as used by `val.to_string()` in `Reply::to_http`. -/
def Json.toString : Json → String
  | Json.null => "null"
  | Json.bool true => "true"
  | Json.bool false => "false"
  | Json.num n => ToString.toString n
  | Json.str s => "\"" ++ jsonEscape s ++ "\""
  | Json.arr xs => "[" ++ jsonArrBody xs ++ "]"
  | Json.obj kvs => "\x7b" ++ jsonObjBody kvs ++ "\x7d"

/-- Comma-separated serialization of array elements. -/
def jsonArrBody : List Json → String
  | [] => ""
  | [x] => Json.toString x
  | x :: y :: rest => Json.toString x ++ "," ++ jsonArrBody (y :: rest)

/-- Comma-separated serialization of object members. -/
def jsonObjBody : List (String × Json) → String
  | [] => ""
  | [(k, v)] => "\"" ++ jsonEscape k ++ "\":" ++ Json.toString v
  | (k, v) :: m :: rest =>
      "\"" ++ jsonEscape k ++ "\":" ++ Json.toString v ++ "," ++ jsonObjBody (m :: rest)

end

/-- Query-parameter mapping, mirroring `pub type Params =
serde_json::value::Map<String, JsonValue>` in lib.rs: an ordered mapping
from strings to JSON values. -/
abbrev Params := List (String × Json)

/-- A JSON object document, mirroring the `JsonObject` alias used by the
adapter trait. -/
abbrev JsonObject := List (String × Json)

/-- Request verbs, mirroring `enum Method` in request.rs. -/
inductive Method where
  | list : Method
  | get : Method
  | delete : Method
  | post : Method
  | patch : Method
  | listen : Method
  | action : String → Method
deriving DecidableEq

/-- A request record, mirroring `struct Request` in request.rs: optional
identifier, query parameters, body document, resource name and verb. -/
structure Request where
  id : Option String
  params : Params
  data : Json
  resource : String
  method : Method

/-- Constructor mirroring `Request::new(resource, method, id, data, params)`. -/
def Request.new (resource : String) (method : Method) (id : Option String)
    (data : Json) (params : Params) : Request :=
  { resource := resource, method := method, id := id, data := data, params := params }

/-- The effect of writing through the mutable reference returned by
`Request::data_mut(&mut self) -> &mut JsonValue`: the body document is
replaced, nothing else is touched.  This is the only mutating accessor
in Request's public interface. -/
def Request.data_mut (r : Request) (v : Json) : Request :=
  { r with data := v }

/-- Error kinds.  Modelled from the spec: the `ErrorKind` enumeration is
imported by adapter.rs from a module absent from src/; the spec calls it
a closed enumeration with at least BadRequest, ServerError, NotFound and
Conflict. -/
inductive ErrorKind where
  | badRequest : ErrorKind
  | serverError : ErrorKind
  | notFound : ErrorKind
  | conflict : ErrorKind
deriving DecidableEq

/-- Error values.  Modelled from the spec: the `Error` type used by
adapter.rs is absent from src/; the spec describes it as a kind from the
closed enumeration paired with a schema-free JSON detail payload. -/
structure Error where
  kind : ErrorKind
  detail : Json

/-- Modelled from the spec: `Error::new(kind, val)` pairs the kind with
the detail payload unchanged. -/
def Error.new (kind : ErrorKind) (detail : Json) : Error :=
  { kind := kind, detail := detail }

/-- Modelled from the spec: `Error::bad_request(msg)` is a BadRequest
error whose detail is the message. -/
def Error.bad_request (msg : String) : Error :=
  { kind := ErrorKind.badRequest, detail := Json.str msg }

/-- Modelled from the spec: `Error::server_error(msg)` is a ServerError
whose detail is the message. -/
def Error.server_error (msg : String) : Error :=
  { kind := ErrorKind.serverError, detail := Json.str msg }

/-- A chunk of response body bytes, mirroring hyper::Chunk built from a
serialized string. -/
abbrev Chunk := String

/-- State of the unbounded mpsc queue that backs a streamed reply: the
chunks buffered but not yet pulled, and whether every Sender has been
dropped (the queue is closed).  This embeds futures::sync::mpsc's
unbounded channel as observed by its receiving end. -/
structure MpscQueue where
  buffer : List Chunk
  closed : Bool

/-- The receiving end of the queue, mirroring `type MpscReceiver =
mpsc::UnboundedReceiver<HyperChunk>` in reply.rs. -/
abbrev MpscReceiver := MpscQueue

/-- Result of polling a futures 0.1 stream: a value is ready, or the
caller must wait. -/
inductive Async (α : Type) where
  | ready : α → Async α
  | notReady : Async α
deriving DecidableEq

/-- Transport-level errors, mirroring the variants of hyper::Error that
reply.rs can produce or pass along. -/
inductive HyperError where
  | incomplete : HyperError
  | tooLarge : HyperError
  | status : HyperError
deriving DecidableEq

/-- Polling the mpsc receiver: a buffered chunk is handed out in arrival
order; an empty queue ends the stream if every sender is gone and
otherwise reports not-ready.  The error slot (unit, as in futures mpsc)
is never filled by the queue itself. -/
def MpscQueue.poll : MpscQueue → Except Unit (Async (Option Chunk)) × MpscQueue
  | { buffer := c :: rest, closed := cl } =>
      (Except.ok (Async.ready (some c)), { buffer := rest, closed := cl })
  | { buffer := [], closed := true } =>
      (Except.ok (Async.ready none), { buffer := [], closed := true })
  | { buffer := [], closed := false } =>
      (Except.ok Async.notReady, { buffer := [], closed := false })

/-- Response bodies, mirroring `enum Body` in reply.rs: a one-shot chunk
or a live stream fed by the mpsc queue. -/
inductive Body where
  | once : Option Chunk → Body
  | stream : MpscReceiver → Body

/-- The error translation in the stream arm of `Body::poll`: a queue
communication failure surfaces as hyper's Incomplete error, anything
else passes through. -/
def streamPollToBody (r : Except Unit (Async (Option Chunk))) :
    Except HyperError (Async (Option Chunk)) :=
  match r with
  | Except.ok u => Except.ok u
  | Except.error () => Except.error HyperError.incomplete

/-- One step of `Body::poll`: the Once arm takes the stored chunk out of
the option (leaving None behind) and reports it ready; the Stream arm
polls the queue and maps its error type. -/
def Body.poll : Body → Except HyperError (Async (Option Chunk)) × Body
  | Body.once o => (Except.ok (Async.ready o), Body.once none)
  | Body.stream r =>
      let p := r.poll
      (streamPollToBody p.1, Body.stream p.2)

/-- The results of polling a body n times in sequence. -/
def Body.pollTrace : Body → Nat → List (Except HyperError (Async (Option Chunk)))
  | _, 0 => []
  | b, Nat.succ n =>
      let p := b.poll
      p.1 :: p.2.pollTrace n

/-- Reply payloads, mirroring `enum ReplyData` in reply.rs: a single JSON
value or the receiving end of a chunk queue. -/
inductive ReplyData where
  | value : Json → ReplyData
  | stream : MpscReceiver → ReplyData

/-- A reply envelope, mirroring `struct Reply` in reply.rs: payload,
status code, and optionally the originating request. -/
structure Reply where
  data : ReplyData
  code : Int
  req : Option Request

/-- Constructor mirroring `Reply::new(code, req, data)`. -/
def Reply.new (code : Int) (req : Option Request) (data : Json) : Reply :=
  { code := code, req := req, data := ReplyData.value data }

/-- Modelled from the spec: `make_reply`, referenced by request.rs but
absent from src/, wraps a JSON document into a Value reply bound to the
originating request (the dispatcher's success path; the spec leaves the
status code at the 200 default). -/
def make_reply (req : Request) (reply : Json) : Reply :=
  Reply.new 200 (some req) reply

/-- Mirrors `Request::into_reply(self, reply)`: delegates to make_reply. -/
def Request.into_reply (r : Request) (reply : Json) : Reply :=
  make_reply r reply

/-- Modelled from the spec: the `Sender` type used by reply.rs is absent
from src/.  It is the producer-side write handle over the same queue
that backs a Stream reply; we carry the queue state it acts on. -/
structure Sender where
  tx : MpscQueue

/-- Modelled from the spec: `Sender::new(tx)` wraps the transmitting end
of the queue. -/
def Sender.new (tx : MpscQueue) : Sender :=
  { tx := tx }

/-- Modelled from the spec: each send enqueues one chunk at the back of
the shared queue, preserving send order. -/
def Sender.send (s : Sender) (c : Chunk) : Sender :=
  { tx := { buffer := s.tx.buffer ++ [c], closed := s.tx.closed } }

/-- Send a whole list of chunks in order. -/
def Sender.sendAll (s : Sender) (cs : List Chunk) : Sender :=
  cs.foldl Sender.send s

/-- Modelled from the spec: dropping the last Sender closes the queue,
which the receiving end observes as end of stream; buffered chunks stay
deliverable.  Returns the queue state the receiver now sees. -/
def Sender.dropSender (s : Sender) : MpscQueue :=
  { buffer := s.tx.buffer, closed := true }

/-- A fresh unbounded channel, mirroring `mpsc::unbounded()`: both the
transmitting and the receiving side refer to this same empty open
queue. -/
def mpscUnbounded : MpscQueue :=
  { buffer := [], closed := false }

/-- Mirrors `Reply::new_streamed(code, req)`: makes one fresh queue,
keeps its receiving end inside a Stream reply, and wraps its
transmitting end in a Sender, returning the pair. -/
def Reply.new_streamed (code : Int) (req : Option Request) : Sender × Reply :=
  let rx := mpscUnbounded
  let reply : Reply := { code := code, req := req, data := ReplyData.stream rx }
  let sender := Sender.new mpscUnbounded
  (sender, reply)

/-- Content types a reply can set, mirroring the hyper mime value built
in `Reply::to_http` for the stream arm. -/
inductive ContentTypeVal where
  | textEventStreamUtf8 : ContentTypeVal
deriving DecidableEq

/-- An HTTP response under construction, mirroring the parts of
hyper::server::Response that reply.rs touches: status (defaulted by
`Response::new()`), optional ContentLength and ContentType headers, and
the body. -/
structure HttpResponse where
  status : Nat
  contentLength : Option Nat
  contentType : Option ContentTypeVal
  body : Body

/-- Mirrors hyper's `Response::new()`: default 200 status, no headers
set, empty body. -/
def HttpResponse.new : HttpResponse :=
  { status := 200, contentLength := none, contentType := none, body := Body.once none }

/-- Mirrors `.with_header(ContentLength(n))`. -/
def HttpResponse.withContentLength (r : HttpResponse) (n : Nat) : HttpResponse :=
  { r with contentLength := some n }

/-- Mirrors `.with_header(ContentType(text/event-stream; charset=utf-8))`. -/
def HttpResponse.withContentType (r : HttpResponse) (t : ContentTypeVal) : HttpResponse :=
  { r with contentType := some t }

/-- Mirrors `.with_body(b)`. -/
def HttpResponse.with_body (r : HttpResponse) (b : Body) : HttpResponse :=
  { r with body := b }

/-- Mirrors `Reply::to_http`: a Value reply serializes its document,
reports the serialized byte length and hands the text over as a one-shot
body; a Stream reply marks the event-stream content type and hands the
queue's receiving end over as a streaming body.  The reply's code and
req fields are not consulted. -/
def Reply.to_http (r : Reply) : HttpResponse :=
  match r.data with
  | ReplyData.value val =>
      let resp_str := val.toString
      (HttpResponse.new.withContentLength resp_str.utf8ByteSize).with_body
        (Body.once (some resp_str))
  | ReplyData.stream st =>
      (HttpResponse.new.withContentType ContentTypeVal.textEventStreamUtf8).with_body
        (Body.stream st)

/-- Names of the five adapter capability operations, used to record
which operations a dispatch invokes. -/
inductive AdapterOp where
  | opList : AdapterOp
  | opGet : AdapterOp
  | opPost : AdapterOp
  | opPatch : AdapterOp
  | opDelete : AdapterOp
deriving DecidableEq

/-- A backend capability interface, mirroring `trait Adapter`: five
operations, each resolving to a JSON object or failing with a
(kind, detail) pair.  The body documents are passed as the request
carries them. -/
structure Adapter where
  list : Params → Except (ErrorKind × Json) JsonObject
  get : String → Params → Except (ErrorKind × Json) JsonObject
  post : Json → Params → Except (ErrorKind × Json) JsonObject
  patch : String → Json → Params → Except (ErrorKind × Json) JsonObject
  delete : String → Params → Except (ErrorKind × Json) JsonObject

/-- The continuation applied to the chosen operation's result in
`handle` (`res.then(...)`): success wraps the document into a reply via
`req.into_reply`, failure rebuilds the error pair via `Error::new`. -/
def backendToReply (req : Request) (res : Except (ErrorKind × Json) JsonObject) :
    Except Error Reply :=
  match res with
  | Except.ok val => Except.ok (req.into_reply (Json.obj val))
  | Except.error (kind, val) => Except.error (Error.new kind val)

/-- Mirrors `Adapter::handle`, including the top-to-bottom order of the
match arms on (method, id).  Alongside the outcome it records which of
the five operations were invoked, in order. -/
def Adapter.handle (a : Adapter) (req : Request) : List AdapterOp × Except Error Reply :=
  match req.method, req.id with
  | Method.list, _ =>
      ([AdapterOp.opList], backendToReply req (a.list req.params))
  | Method.post, _ =>
      ([AdapterOp.opPost], backendToReply req (a.post req.data req.params))
  | Method.get, some id =>
      ([AdapterOp.opGet], backendToReply req (a.get id req.params))
  | Method.delete, some id =>
      ([AdapterOp.opDelete], backendToReply req (a.delete id req.params))
  | Method.patch, some id =>
      ([AdapterOp.opPatch], backendToReply req (a.patch id req.data req.params))
  | _, none =>
      ([], Except.error (Error.bad_request "missing id in request"))
  | Method.listen, _ =>
      ([], Except.error (Error.server_error "passed listen request to database adapter"))
  | Method.action _, _ =>
      ([], Except.error (Error.server_error "passed action request to database adapter"))

/-- A concrete adapter whose five operations all succeed, each returning
a document naming the operation (in the style of the TestAdapter in
adapter.rs's tests). -/
def okProbe : Adapter :=
  { list := fun _ => Except.ok [("method", Json.str "find")]
  , get := fun _ _ => Except.ok [("method", Json.str "get")]
  , post := fun _ _ => Except.ok [("method", Json.str "post")]
  , patch := fun _ _ _ => Except.ok [("method", Json.str "patch")]
  , delete := fun _ _ => Except.ok [("method", Json.str "delete")] }

/-- A concrete adapter whose five operations all fail with the same
(kind, detail) pair. -/
def errProbe : Adapter :=
  { list := fun _ => Except.error (ErrorKind.conflict, Json.str "probe failure")
  , get := fun _ _ => Except.error (ErrorKind.conflict, Json.str "probe failure")
  , post := fun _ _ => Except.error (ErrorKind.conflict, Json.str "probe failure")
  , patch := fun _ _ _ => Except.error (ErrorKind.conflict, Json.str "probe failure")
  , delete := fun _ _ => Except.error (ErrorKind.conflict, Json.str "probe failure") }

/-- Repeatedly polling a drained one-shot body keeps signalling a clean
end of sequence. -/
theorem pollTrace_once_none (k : Nat) :
    Body.pollTrace (Body.once none) k
      = List.replicate k (Except.ok (Async.ready none)) := by
  induction k with
  | zero => rfl
  | succ n ih => simp [Body.pollTrace, Body.poll, List.replicate, ih]

/-- Repeatedly polling a closed, drained queue keeps signalling a clean
end of sequence. -/
theorem pollTrace_closed_empty (k : Nat) :
    Body.pollTrace (Body.stream { buffer := [], closed := true }) k
      = List.replicate k (Except.ok (Async.ready none)) := by
  induction k with
  | zero => rfl
  | succ n ih =>
      simp [Body.pollTrace, Body.poll, MpscQueue.poll, streamPollToBody, List.replicate, ih]

/-- Polling a closed queue first yields its buffered chunks in order and
then a clean end of sequence at every further poll. -/
theorem pollTrace_closed (cs : List Chunk) (k : Nat) :
    Body.pollTrace (Body.stream { buffer := cs, closed := true }) (cs.length + k)
      = cs.map (fun c => Except.ok (Async.ready (some c)))
        ++ List.replicate k (Except.ok (Async.ready none)) := by
  induction cs with
  | nil => simpa using pollTrace_closed_empty k
  | cons c rest ih =>
      have hlen : (c :: rest).length + k = (rest.length + k) + 1 := by
        simp [List.length_cons]
        omega
      rw [hlen]
      simp [Body.pollTrace, Body.poll, MpscQueue.poll, streamPollToBody, ih]

/-- Sending a list of chunks through a Sender appends them, in order, to
the back of the queue's buffer. -/
theorem sendAll_mk (cs : List Chunk) (b : List Chunk) (cl : Bool) :
    Sender.sendAll { tx := { buffer := b, closed := cl } } cs
      = { tx := { buffer := b ++ cs, closed := cl } } := by
  induction cs generalizing b with
  | nil => simp [Sender.sendAll]
  | cons c rest ih =>
      show Sender.sendAll (Sender.send { tx := { buffer := b, closed := cl } } c) rest = _
      simp [Sender.send, ih]


/-- C1, claim as stated refuted at a concrete input: a Listen request
with an absent identifier does not produce the ServerError "passed
listen request to database adapter"; the wildcard missing-id arm of the
match precedes the Listen arm and returns BadRequest instead. -/
theorem listen_none_not_server_error :
    (okProbe.handle (Request.new "widgets" Method.listen none Json.null [])).2
      = Except.error (Error.bad_request "missing id in request") ∧
    (okProbe.handle (Request.new "widgets" Method.listen none Json.null [])).2
      ≠ Except.error (Error.server_error "passed listen request to database adapter") := by
  refine ⟨rfl, ?_⟩
  intro h
  have hk := congrArg
    (fun e => match e with
      | Except.error er => er.kind
      | Except.ok _ => ErrorKind.notFound) h
  simp [Adapter.handle, Request.new, Error.bad_request, Error.server_error] at hk

/-- C1 (amended): a Listen request with a present identifier fails with
ServerError "passed listen request to database adapter", while a Listen
request with an absent identifier fails with BadRequest "missing id in
request"; in both cases none of the five adapter operations is
invoked. -/
theorem listen_dispatch (a : Adapter) (r : String) (d : Json) (p : Params) :
    (∀ id : String,
      a.handle (Request.new r Method.listen (some id) d p)
        = ([], Except.error (Error.server_error "passed listen request to database adapter"))) ∧
    a.handle (Request.new r Method.listen none d p)
      = ([], Except.error (Error.bad_request "missing id in request")) := by
  exact ⟨fun _ => rfl, rfl⟩

/-- C2: Get, Patch, Delete and Action requests with an absent identifier
fail with BadRequest "missing id in request" and invoke none of the five
adapter operations. -/
theorem missing_id_bad_request (a : Adapter) (r : String) (d : Json) (p : Params)
    (name : String) :
    a.handle (Request.new r Method.get none d p)
      = ([], Except.error (Error.bad_request "missing id in request")) ∧
    a.handle (Request.new r Method.patch none d p)
      = ([], Except.error (Error.bad_request "missing id in request")) ∧
    a.handle (Request.new r Method.delete none d p)
      = ([], Except.error (Error.bad_request "missing id in request")) ∧
    a.handle (Request.new r (Method.action name) none d p)
      = ([], Except.error (Error.bad_request "missing id in request")) := by
  exact ⟨rfl, rfl, rfl, rfl⟩

/-- C3: each routable request shape invokes exactly one adapter
operation with the request's own arguments — List invokes list(params)
and Post invokes post(body, params) whatever the identifier, while Get,
Delete and Patch with a present identifier invoke get, delete and patch
respectively — and the outcome is that operation's result passed through
the reply continuation. -/
theorem dispatch_routes_one_op (a : Adapter) (r : String) (i : Option String)
    (id : String) (d : Json) (p : Params) :
    a.handle (Request.new r Method.list i d p)
      = ([AdapterOp.opList], backendToReply (Request.new r Method.list i d p) (a.list p)) ∧
    a.handle (Request.new r Method.post i d p)
      = ([AdapterOp.opPost], backendToReply (Request.new r Method.post i d p) (a.post d p)) ∧
    a.handle (Request.new r Method.get (some id) d p)
      = ([AdapterOp.opGet], backendToReply (Request.new r Method.get (some id) d p) (a.get id p)) ∧
    a.handle (Request.new r Method.delete (some id) d p)
      = ([AdapterOp.opDelete],
          backendToReply (Request.new r Method.delete (some id) d p) (a.delete id p)) ∧
    a.handle (Request.new r Method.patch (some id) d p)
      = ([AdapterOp.opPatch],
          backendToReply (Request.new r Method.patch (some id) d p) (a.patch id d p)) := by
  refine ⟨?_, ?_, rfl, rfl, rfl⟩ <;> cases i <;> rfl

/-- C4: whenever the operation a request routes to resolves successfully
with a document, handle returns a Value reply carrying exactly that
document, bound to the originating request, with no transformation. -/
theorem backend_success_exact (a : Adapter) (r : String) (i : Option String)
    (id : String) (d : Json) (p : Params) :
    (∀ doc : JsonObject, a.list p = Except.ok doc →
      (a.handle (Request.new r Method.list i d p)).2
        = Except.ok
            { data := ReplyData.value (Json.obj doc), code := 200,
              req := some (Request.new r Method.list i d p) }) ∧
    (∀ doc : JsonObject, a.post d p = Except.ok doc →
      (a.handle (Request.new r Method.post i d p)).2
        = Except.ok
            { data := ReplyData.value (Json.obj doc), code := 200,
              req := some (Request.new r Method.post i d p) }) ∧
    (∀ doc : JsonObject, a.get id p = Except.ok doc →
      (a.handle (Request.new r Method.get (some id) d p)).2
        = Except.ok
            { data := ReplyData.value (Json.obj doc), code := 200,
              req := some (Request.new r Method.get (some id) d p) }) ∧
    (∀ doc : JsonObject, a.delete id p = Except.ok doc →
      (a.handle (Request.new r Method.delete (some id) d p)).2
        = Except.ok
            { data := ReplyData.value (Json.obj doc), code := 200,
              req := some (Request.new r Method.delete (some id) d p) }) ∧
    (∀ doc : JsonObject, a.patch id d p = Except.ok doc →
      (a.handle (Request.new r Method.patch (some id) d p)).2
        = Except.ok
            { data := ReplyData.value (Json.obj doc), code := 200,
              req := some (Request.new r Method.patch (some id) d p) }) := by
  refine ⟨?_, ?_, ?_, ?_, ?_⟩ <;>
    (intro doc h
     cases i <;>
       simp [Adapter.handle, Request.new, backendToReply, h, Request.into_reply,
         make_reply, Reply.new])

/-- C4 witness: the success wrapping observed on a concrete adapter for
all five operations. -/
theorem backend_success_exact_witness :
    ((okProbe.handle (Request.new "w" Method.list none Json.null [])).2
      = Except.ok
          { data := ReplyData.value (Json.obj [("method", Json.str "find")]), code := 200,
            req := some (Request.new "w" Method.list none Json.null []) }) ∧
    ((okProbe.handle (Request.new "w" Method.post none Json.null [])).2
      = Except.ok
          { data := ReplyData.value (Json.obj [("method", Json.str "post")]), code := 200,
            req := some (Request.new "w" Method.post none Json.null []) }) ∧
    ((okProbe.handle (Request.new "w" Method.get (some "7") Json.null [])).2
      = Except.ok
          { data := ReplyData.value (Json.obj [("method", Json.str "get")]), code := 200,
            req := some (Request.new "w" Method.get (some "7") Json.null []) }) ∧
    ((okProbe.handle (Request.new "w" Method.delete (some "7") Json.null [])).2
      = Except.ok
          { data := ReplyData.value (Json.obj [("method", Json.str "delete")]), code := 200,
            req := some (Request.new "w" Method.delete (some "7") Json.null []) }) ∧
    ((okProbe.handle (Request.new "w" Method.patch (some "7") Json.null [])).2
      = Except.ok
          { data := ReplyData.value (Json.obj [("method", Json.str "patch")]), code := 200,
            req := some (Request.new "w" Method.patch (some "7") Json.null []) }) := by
  have h := backend_success_exact okProbe "w" none "7" Json.null []
  exact ⟨h.1 _ rfl, h.2.1 _ rfl, h.2.2.1 _ rfl, h.2.2.2.1 _ rfl, h.2.2.2.2 _ rfl⟩

/-- C5: whenever the operation a request routes to fails with a
(kind, detail) pair, handle returns an Error with both components
unchanged, and every request makes at most one backend call. -/
theorem backend_error_propagated (a : Adapter) (r : String) (i : Option String)
    (id : String) (d : Json) (p : Params) :
    (∀ kind detail, a.list p = Except.error (kind, detail) →
      (a.handle (Request.new r Method.list i d p)).2
        = Except.error { kind := kind, detail := detail }) ∧
    (∀ kind detail, a.post d p = Except.error (kind, detail) →
      (a.handle (Request.new r Method.post i d p)).2
        = Except.error { kind := kind, detail := detail }) ∧
    (∀ kind detail, a.get id p = Except.error (kind, detail) →
      (a.handle (Request.new r Method.get (some id) d p)).2
        = Except.error { kind := kind, detail := detail }) ∧
    (∀ kind detail, a.delete id p = Except.error (kind, detail) →
      (a.handle (Request.new r Method.delete (some id) d p)).2
        = Except.error { kind := kind, detail := detail }) ∧
    (∀ kind detail, a.patch id d p = Except.error (kind, detail) →
      (a.handle (Request.new r Method.patch (some id) d p)).2
        = Except.error { kind := kind, detail := detail }) ∧
    (∀ q : Request, (a.handle q).1.length ≤ 1) := by
  refine ⟨?_, ?_, ?_, ?_, ?_, ?_⟩
  case _ =>
    intro kind detail h
    cases i <;> simp [Adapter.handle, Request.new, backendToReply, h, Error.new]
  case _ =>
    intro kind detail h
    cases i <;> simp [Adapter.handle, Request.new, backendToReply, h, Error.new]
  case _ =>
    intro kind detail h
    simp [Adapter.handle, Request.new, backendToReply, h, Error.new]
  case _ =>
    intro kind detail h
    simp [Adapter.handle, Request.new, backendToReply, h, Error.new]
  case _ =>
    intro kind detail h
    simp [Adapter.handle, Request.new, backendToReply, h, Error.new]
  case _ =>
    intro q
    rcases q with ⟨qi, qp, qd, qr, qm⟩
    cases qm <;> cases qi <;> simp [Adapter.handle]

/-- C5 witness: the error propagation observed on a concrete failing
adapter for all five operations, plus the call bound at a concrete
request. -/
theorem backend_error_propagated_witness :
    ((errProbe.handle (Request.new "w" Method.list none Json.null [])).2
      = Except.error { kind := ErrorKind.conflict, detail := Json.str "probe failure" }) ∧
    ((errProbe.handle (Request.new "w" Method.post none Json.null [])).2
      = Except.error { kind := ErrorKind.conflict, detail := Json.str "probe failure" }) ∧
    ((errProbe.handle (Request.new "w" Method.get (some "7") Json.null [])).2
      = Except.error { kind := ErrorKind.conflict, detail := Json.str "probe failure" }) ∧
    ((errProbe.handle (Request.new "w" Method.delete (some "7") Json.null [])).2
      = Except.error { kind := ErrorKind.conflict, detail := Json.str "probe failure" }) ∧
    ((errProbe.handle (Request.new "w" Method.patch (some "7") Json.null [])).2
      = Except.error { kind := ErrorKind.conflict, detail := Json.str "probe failure" }) ∧
    (errProbe.handle (Request.new "w" Method.listen none Json.null [])).1.length ≤ 1 := by
  have h := backend_error_propagated errProbe "w" none "7" Json.null []
  exact ⟨h.1 _ _ rfl, h.2.1 _ _ rfl, h.2.2.1 _ _ rfl, h.2.2.2.1 _ _ rfl,
    h.2.2.2.2.1 _ _ rfl, h.2.2.2.2.2 (Request.new "w" Method.listen none Json.null [])⟩

/-- C6: a Value reply's HTTP response reports a ContentLength equal to
the byte length of the serialized document, and its body yields that
serialized text as one chunk on the first poll and signals end of
sequence on every later poll — it cannot be replayed. -/
theorem value_reply_http (val : Json) (code : Int) (rq : Option Request) (k : Nat) :
    ((Reply.mk (ReplyData.value val) code rq).to_http).contentLength
        = some val.toString.utf8ByteSize ∧
    ((Reply.mk (ReplyData.value val) code rq).to_http).body.pollTrace (k + 1)
        = Except.ok (Async.ready (some val.toString))
          :: List.replicate k (Except.ok (Async.ready none)) := by
  refine ⟨rfl, ?_⟩
  show Body.pollTrace (Body.once (some val.toString)) (k + 1) = _
  simp [Body.pollTrace, Body.poll, pollTrace_once_none]

/-- C7: a closed chunk queue makes every poll of a Stream body yield a
clean end-of-sequence value, not an error, while a communication failure
reported by the queue's poll is mapped to the Incomplete error value
handed to the transport writer. -/
theorem stream_close_and_failure :
    (∀ k, Body.pollTrace (Body.stream { buffer := [], closed := true }) k
        = List.replicate k (Except.ok (Async.ready none))) ∧
    (∀ u, streamPollToBody (Except.ok u) = Except.ok u) ∧
    streamPollToBody (Except.error ()) = Except.error HyperError.incomplete := by
  exact ⟨pollTrace_closed_empty, fun _ => rfl, rfl⟩

/-- C8: new_streamed returns a Sender and a Reply built over the same
fresh queue, with the given code and request; sending any chunk list
through the Sender and then dropping it makes the Reply's body yield
exactly those chunks in send order followed by end of sequence at every
later poll — the empty list gives an immediately-ending body. -/
theorem streamed_reply_order (code : Int) (rq : Option Request) (cs : List Chunk) (k : Nat) :
    (Reply.new_streamed code rq).1 = Sender.new mpscUnbounded ∧
    (Reply.new_streamed code rq).2.data = ReplyData.stream mpscUnbounded ∧
    (Reply.new_streamed code rq).2.code = code ∧
    (Reply.new_streamed code rq).2.req = rq ∧
    Body.pollTrace
        (Body.stream (Sender.dropSender (Sender.sendAll (Reply.new_streamed code rq).1 cs)))
        (cs.length + k)
      = cs.map (fun c => Except.ok (Async.ready (some c)))
        ++ List.replicate k (Except.ok (Async.ready none)) := by
  refine ⟨rfl, rfl, rfl, rfl, ?_⟩
  have h1 : Sender.sendAll (Reply.new_streamed code rq).1 cs
      = { tx := { buffer := cs, closed := false } } := by
    show Sender.sendAll { tx := { buffer := [], closed := false } } cs = _
    simpa using sendAll_mk cs [] false
  rw [h1]
  exact pollTrace_closed cs k

/-- C9: writing through the body accessor — the only mutating accessor
in the request's public interface — replaces the body document and
leaves the resource name, verb, identifier and query parameters
unchanged. -/
theorem request_data_mut_frame (r : Request) (v : Json) :
    (r.data_mut v).resource = r.resource ∧
    (r.data_mut v).method = r.method ∧
    (r.data_mut v).id = r.id ∧
    (r.data_mut v).params = r.params ∧
    (r.data_mut v).data = v := by
  exact ⟨rfl, rfl, rfl, rfl, rfl⟩

/-- C10: to_http never consults the reply's code field — two replies
with the same payload and request but different codes produce identical
responses, and the response keeps the default status that Response::new
installs. -/
theorem to_http_ignores_code (d : ReplyData) (c1 c2 : Int) (rq : Option Request) :
    (Reply.mk d c1 rq).to_http = (Reply.mk d c2 rq).to_http ∧
    ((Reply.mk d c1 rq).to_http).status = HttpResponse.new.status := by
  cases d <;> exact ⟨rfl, rfl⟩
